import Mathlib

/-!
Shallow embedding of the `gpu-info` crate (src/lib.rs, src/metal.rs,
src/vulkan.rs) and verification of its specification.

External OS facilities (the Metal device registry, the IOKit hardware
property registry, the Vulkan loader/instance) are modelled as explicit
environment values passed to the embedded functions; each embedded
function mirrors the control flow of the Rust function it is named after.
-/

namespace GpuInfo

/-- `GPUKind` enum from src/lib.rs. -/
inductive GPUKind where
  | Integrated
  | Discrete
  | Virtual
  | CPU
  | Unknown
deriving DecidableEq, Repr

/-- `GPULocation` enum from src/lib.rs (default `Unspecified`). -/
inductive GPULocation where
  | BuiltIn
  | Slot
  | External
  | Unspecified
deriving DecidableEq, Repr

/-- The unified `GPU` descriptor struct from src/lib.rs.  `vram` is a `u64`
(MB; `0` means unknown), modelled as `Nat`. -/
structure GPU where
  kind : GPUKind
  name : String
  vendor : String
  driver_version : String
  vram : Nat
  clock_speed : Option Nat
  temperature : Option Nat
deriving DecidableEq, Repr

/-- `MetalError` from src/metal.rs: the only variant is `NotSupported`. -/
inductive MetalError where
  | NotSupported
deriving DecidableEq, Repr

/-- The crate-level `Error` enum from src/lib.rs.  `VulkanOperationFailed`
carries the underlying message string; `Metal` wraps a `MetalError`
(the `#[from]` conversion). -/
inductive Error where
  | VulkanOperationFailed (msg : String)
  | VulkanNotSupported
  | OpenGLContextCreationFailed
  | OpenGLQueryFailed
  | Metal (e : MetalError)
deriving DecidableEq, Repr

/-- `Error::is_vulkan_not_supported` from src/lib.rs. -/
def Error.is_vulkan_not_supported : Error → Bool
  | Error.VulkanNotSupported => true
  | _ => false

/-- Substring occurrence on character lists: some suffix of `s` starts with
`pat`.  Models Rust `str::contains` (for valid UTF-8, byte-level substring
containment coincides with character-level containment). -/
def hasSubstring : List Char → List Char → Bool
  | [], pat => pat.isEmpty
  | c :: rest, pat => pat.isPrefixOf (c :: rest) || hasSubstring rest pat

/-- Rust `name.contains(pat)` on strings. -/
def strContains (s pat : String) : Bool :=
  hasSubstring s.toList pat.toList

/-- `detect_vendor` from src/metal.rs: ordered, case-sensitive substring
heuristic over the device name. -/
def detect_vendor (name : String) : String :=
  if strContains name "Apple" || strContains name "M1" || strContains name "M2"
      || strContains name "M3" || strContains name "M4" || strContains name "M5" then
    "Apple"
  else if strContains name "Intel" then
    "Intel"
  else if strContains name "AMD" || strContains name "Radeon" then
    "AMD"
  else if strContains name "NVIDIA" then
    "NVIDIA"
  else
    "Unknown"

/-- `MaxThreadsPerThreadgroup` struct from src/metal.rs. -/
structure MaxThreadsPerThreadgroup where
  width : Nat
  height : Nat
  depth : Nat
deriving DecidableEq, Repr

/-- A Metal `MTLDevice` as observed through the accessors used by
`extract_gpu_info` in src/metal.rs.  `location` is already mapped through
the `From<MTLDeviceLocation> for GPULocation` conversion (a bijection on
the four named cases); `registryID` and `recommendedMaxWorkingSetSize`
are `u64`, modelled as `Nat`. -/
structure MTLDeviceModel where
  name : String
  isRemovable : Bool
  isHeadless : Bool
  isLowPower : Bool
  registryID : Nat
  location : GPULocation
  hasUnifiedMemory : Bool
  maxThreadsPerThreadgroup : MaxThreadsPerThreadgroup
  recommendedMaxWorkingSetSize : Nat

/-- The backend-internal `MetalGpu` record from src/metal.rs. -/
structure MetalGpu where
  kind : GPUKind
  name : String
  vendor : String
  vram : Nat
  is_removable : Bool
  is_headless : Bool
  registry_id : Nat
  location : GPULocation
  has_unified_memory : Bool
  max_threads_per_threadgroup : MaxThreadsPerThreadgroup
  recommended_max_working_set : Nat

/-- The `From<MetalGpu> for GPU` conversion in src/metal.rs:
`driver_version` is always `"Unknown"`, `clock_speed` and `temperature`
are always absent. -/
def metalGpuToGPU (gpu : MetalGpu) : GPU :=
  { kind := gpu.kind
    name := gpu.name
    vendor := gpu.vendor
    driver_version := "Unknown"
    vram := gpu.vram
    clock_speed := none
    temperature := none }

/-- The IOKit registry world as observed by `get_vram_via_iokit` in
src/metal.rs:
* `idMatching rid`: result of `IORegistryEntryIDMatching(rid)` (`none`
  models a null matching dictionary);
* `matchingService rid`: the handle from `IOServiceGetMatchingService`
  (`0` means no service matched);
* `entryProperties e`: the property dictionary of service handle `e`;
  `none` models a failed `IORegistryEntryCreateCFProperties` call (nonzero
  result or null output).  A dictionary maps a key to `none` (key absent),
  `some none` (key present but not a numeric `CFNumber`), or
  `some (some v)` (numeric value `v`, the `i64` from `CFNumber::as_i64`). -/
structure IOKitEnv where
  idMatching : Nat → Option Unit
  matchingService : Nat → Nat
  entryProperties : Nat → Option (String → Option (Option Int))

/-- The key list `["VRAM,totalMB", "VRAM", "VRAM,total"]` probed by
`get_vram_via_iokit`. -/
def vramKeys : List String := ["VRAM,totalMB", "VRAM", "VRAM,total"]

/-- The key loop of `get_vram_via_iokit`: first key whose value is present
and numeric wins; a present but non-numeric value falls through to the
next key. -/
def firstNumericHit (dict : String → Option (Option Int)) : List String → Option Int
  | [] => none
  | k :: ks =>
    match dict k with
    | some (some v) => some v
    | _ => firstNumericHit dict ks

/-- `get_vram_via_iokit` from src/metal.rs.  Every failure mode (null
matching dictionary, no matching service, failed property retrieval,
absent key, non-numeric value) yields `none`; a numeric hit `v : Int` is
cast `as u64` (two's-complement wrap, modelled by `% 2 ^ 64`). -/
def get_vram_via_iokit (env : IOKitEnv) (registry_id : Nat) : Option Nat :=
  match env.idMatching registry_id with
  | none => none
  | some _ =>
    let entry := env.matchingService registry_id
    if entry = 0 then
      none
    else
      match env.entryProperties entry with
      | none => none
      | some dict =>
        match firstNumericHit dict vramKeys with
        | some v => some (Int.toNat (v % (2 ^ 64 : Int)))
        | none => none

/-- `calculate_vram` from src/metal.rs: unified memory uses the working-set
ceiling in MB; otherwise the IOKit lookup with the same ceiling as
fallback (`unwrap_or`). -/
def calculate_vram (env : IOKitEnv) (has_unified_memory : Bool)
    (recommended_max_working_set registry_id : Nat) : Nat :=
  if has_unified_memory then
    recommended_max_working_set / (1024 * 1024)
  else
    (get_vram_via_iokit env registry_id).getD (recommended_max_working_set / (1024 * 1024))

/-- `extract_gpu_info` from src/metal.rs.  The Rust function returns
`Result<MetalGpu, MetalError>` but every path returns `Ok`, so the
embedding returns the record directly. -/
def extract_gpu_info (env : IOKitEnv) (device : MTLDeviceModel) : MetalGpu :=
  let name := device.name
  let is_removable := device.isRemovable
  let is_headless := device.isHeadless
  let is_low_power := device.isLowPower
  let registry_id := device.registryID
  let location := device.location
  let has_unified_memory := device.hasUnifiedMemory
  let kind :=
    if is_low_power then GPUKind.Integrated
    else if is_removable then GPUKind.Discrete
    else if location = GPULocation.BuiltIn then GPUKind.Integrated
    else GPUKind.Discrete
  let vendor := detect_vendor name
  let max_threads_per_threadgroup := device.maxThreadsPerThreadgroup
  let recommended_max_working_set := device.recommendedMaxWorkingSetSize
  let vram := calculate_vram env has_unified_memory recommended_max_working_set registry_id
  { kind := kind
    name := name
    vendor := vendor
    vram := vram
    is_removable := is_removable
    is_headless := is_headless
    registry_id := registry_id
    location := location
    has_unified_memory := has_unified_memory
    max_threads_per_threadgroup := max_threads_per_threadgroup
    recommended_max_working_set := recommended_max_working_set }

/-- `retrieve_gpu_info_via_metal` from src/metal.rs, with the device list
returned by `MTLCopyAllDevices()` as input.  The per-device `?` in the
source never fires because `extract_gpu_info` always returns `Ok`, so the
loop is a `map`. -/
def retrieve_gpu_info_via_metal (env : IOKitEnv) (devices : List MTLDeviceModel) :
    Except MetalError (List MetalGpu) :=
  if devices.isEmpty then
    Except.error MetalError.NotSupported
  else
    Except.ok (devices.map (extract_gpu_info env))

/-- A Vulkan memory heap (`vk::MemoryHeap`): a `u64` size and a flag
bitmask (`DEVICE_LOCAL` is bit 0). -/
structure VkMemoryHeap where
  size : Nat
  flags : Nat
deriving DecidableEq, Repr

/-- `flags.contains(vk::MemoryHeapFlags::DEVICE_LOCAL)`: bit 0 of the
bitmask is set. -/
def memoryHeapIsDeviceLocal (h : VkMemoryHeap) : Bool :=
  h.flags &&& 1 ≠ 0

/-- The fields of `vk::PhysicalDeviceProperties` read by
`retrieve_gpu_info_via_vk`.  `device_name` models
`CStr::from_ptr(..).to_str()` applied to the fixed `c_char` buffer:
`none` when the bytes are not valid UTF-8, otherwise the decoded string
(possibly empty, when the buffer starts with NUL).  `vendor_id` and
`driver_version` are `u32`, `device_type` the raw open-ended enum value
(`INTEGRATED_GPU` = 1, `DISCRETE_GPU` = 2, `VIRTUAL_GPU` = 3, `CPU` = 4). -/
structure VkPhysicalDeviceProperties where
  device_name : Option String
  vendor_id : Nat
  driver_version : Nat
  device_type : Int
deriving DecidableEq, Repr

/-- A Vulkan physical device as observed by the backend: its properties
and its memory-heap table (`memory_heaps` is the fixed 16-entry array,
of which only the first `memory_heap_count` entries are meaningful). -/
structure VkPhysicalDevice where
  properties : VkPhysicalDeviceProperties
  memory_heap_count : Nat
  memory_heaps : List VkMemoryHeap
deriving DecidableEq, Repr

/-- The Vulkan runtime as observed by one enumeration call:
* `entry_load_ok`: whether `ash::Entry::load()` succeeds;
* `create_instance`: result of `entry.create_instance(..)`, the error
  side carrying the native error's `to_string()`;
* `enumerate_physical_devices`: result of
  `instance.enumerate_physical_devices()` plus the per-device property
  and memory queries (which cannot fail). -/
structure VkEnv where
  entry_load_ok : Bool
  create_instance : Except String Unit
  enumerate_physical_devices : Except String (List VkPhysicalDevice)

/-- `is_vulkan_supported` from src/vulkan.rs: `ash::Entry::load().is_ok()`. -/
def is_vulkan_supported (env : VkEnv) : Bool :=
  env.entry_load_ok

/-- The vendor-id table in `retrieve_gpu_info_via_vk`. -/
def vk_vendor_name (vendor_id : Nat) : String :=
  if vendor_id = 0x8086 then "Intel"
  else if vendor_id = 0x10DE then "NVIDIA"
  else if vendor_id = 0x1002 then "AMD"
  else "Unknown"

/-- The driver-version formatting in `retrieve_gpu_info_via_vk`:
`format!("{}.{}.{}", (v >> 22) & 0x3FF, (v >> 12) & 0x3FF, v & 0xFFF)`. -/
def vk_driver_version_string (v : Nat) : String :=
  toString ((v >>> 22) &&& 0x3FF) ++ "." ++ toString ((v >>> 12) &&& 0x3FF)
    ++ "." ++ toString (v &&& 0xFFF)

/-- The device-type mapping in `retrieve_gpu_info_via_vk`. -/
def vk_device_kind (t : Int) : GPUKind :=
  if t = 1 then GPUKind.Integrated
  else if t = 2 then GPUKind.Discrete
  else if t = 3 then GPUKind.Virtual
  else if t = 4 then GPUKind.CPU
  else GPUKind.Unknown

/-- The VRAM summation in `retrieve_gpu_info_via_vk`: total size in bytes
of the first `memory_heap_count` heaps that are flagged device-local. -/
def vk_vram_bytes (d : VkPhysicalDevice) : Nat :=
  (((d.memory_heaps.take d.memory_heap_count).filter memoryHeapIsDeviceLocal).map
    VkMemoryHeap.size).sum

/-- The per-device body of the loop in `retrieve_gpu_info_via_vk`:
builds one unified `GPU` descriptor from one physical device. -/
def extract_vk_gpu (d : VkPhysicalDevice) : GPU :=
  { kind := vk_device_kind d.properties.device_type
    name := (d.properties.device_name).getD "Unknown"
    vendor := vk_vendor_name d.properties.vendor_id
    driver_version := vk_driver_version_string d.properties.driver_version
    vram := vk_vram_bytes d / (1024 * 1024)
    clock_speed := none
    temperature := none }

/-- `retrieve_gpu_info_via_vk` from src/vulkan.rs. -/
def retrieve_gpu_info_via_vk (env : VkEnv) : Except Error (List GPU) :=
  if env.entry_load_ok = false then
    Except.error Error.VulkanNotSupported
  else
    match env.create_instance with
    | Except.error e => Except.error (Error.VulkanOperationFailed e)
    | Except.ok _ =>
      match env.enumerate_physical_devices with
      | Except.error e => Except.error (Error.VulkanOperationFailed e)
      | Except.ok physical_devices =>
        if physical_devices.isEmpty then
          Except.error (Error.VulkanOperationFailed "No Vulkan-compatible GPUs found.")
        else
          Except.ok (physical_devices.map extract_vk_gpu)

/-- `retrieve_gpu_info` from src/lib.rs on the macOS build: delegates to
the Metal backend and converts each record via `From<MetalGpu> for GPU`,
wrapping a backend error via `#[from]`. -/
def retrieve_gpu_info_macos (env : IOKitEnv) (devices : List MTLDeviceModel) :
    Except Error (List GPU) :=
  match retrieve_gpu_info_via_metal env devices with
  | Except.error e => Except.error (Error.Metal e)
  | Except.ok gpus => Except.ok (gpus.map metalGpuToGPU)

/-- `retrieve_gpu_info` from src/lib.rs on the non-macOS build: the source
sets `let gpus = Vec::new();` and returns `Ok(gpus)` without calling the
Vulkan backend. -/
def retrieve_gpu_info_non_macos : Except Error (List GPU) :=
  Except.ok []

/-! ### Spec-side definitions

Each `..._spec` definition below is written from the specification's
words, to be compared with the corresponding definition embedded from the
source. -/

/-- Spec, §4.2 step 5: "the first numeric value found … under the keys
`"VRAM,totalMB"`, `"VRAM"`, `"VRAM,total"` (checked in that order, first
numeric hit wins)". -/
def registry_first_numeric_spec (dict : String → Option (Option Int)) : Option Int :=
  vramKeys.findSome? fun k =>
    match dict k with
    | some (some v) => some v
    | _ => none

/-- First-match-wins evaluation of an ordered rule list, as the spec's
§9 describes the classification chains. -/
def first_rule {α : Type} (default : α) : List (Bool × α) → α
  | [] => default
  | (c, v) :: rs => if c then v else first_rule default rs

/-- Spec, §4.2 step 3: kind classification as an ordered rule list,
"low-power ⇒ Integrated; else removable ⇒ Discrete; else location ==
BuiltIn ⇒ Integrated; else ⇒ Discrete". -/
def classify_kind_spec (low_power removable : Bool) (location : GPULocation) : GPUKind :=
  first_rule GPUKind.Discrete
    [(low_power, GPUKind.Integrated),
     (removable, GPUKind.Discrete),
     (decide (location = GPULocation.BuiltIn), GPUKind.Integrated)]

/-- The vendor rule table of spec §4.2 step 4, in order. -/
def vendor_rules : List (List String × String) :=
  [(["Apple", "M1", "M2", "M3", "M4", "M5"], "Apple"),
   (["Intel"], "Intel"),
   (["AMD", "Radeon"], "AMD"),
   (["NVIDIA"], "NVIDIA")]

/-- First rule of an ordered table one of whose patterns occurs in the
name; `"Unknown"` when none matches. -/
def first_matching_vendor (name : String) : List (List String × String) → String
  | [] => "Unknown"
  | (pats, v) :: rest =>
    if pats.any (fun pat => strContains name pat) then v
    else first_matching_vendor name rest

/-- Spec, §4.2 step 4: vendor detection as an ordered rule table,
case-sensitive substring match, first matching rule wins. -/
def detect_vendor_spec (name : String) : String :=
  first_matching_vendor name vendor_rules

/-- Spec, §4.3 step 9: "sum the sizes of all memory heaps flagged
device-local, convert bytes to megabytes (divide by 1,048,576)" — written
as a sum over all of the device's heaps, counting non-device-local heaps
as 0. -/
def vk_vram_spec (d : VkPhysicalDevice) : Nat :=
  (((d.memory_heaps.take d.memory_heap_count).map
    (fun h => if memoryHeapIsDeviceLocal h then h.size else 0)).sum) / 1048576

/-- Spec, §4.3 step 7: "decode as three 10/10/12-bit fields (major = bits
22–31, minor = bits 12–21, patch = bits 0–11) and format as
`major.minor.patch`" — bit fields written with division and remainder. -/
def vk_driver_version_spec (v : Nat) : String :=
  toString (v / 2 ^ 22 % 2 ^ 10) ++ "." ++ toString (v / 2 ^ 12 % 2 ^ 10)
    ++ "." ++ toString (v % 2 ^ 12)

/-! ### Concrete fixtures used by witnesses and counterexamples -/

/-- An IOKit world in which every lookup fails at the first step. -/
def trivialIOKitEnv : IOKitEnv :=
  { idMatching := fun _ => none
    matchingService := fun _ => 0
    entryProperties := fun _ => none }

/-- A property dictionary whose only numeric entry is `"VRAM" ↦ 4096`;
`"VRAM,totalMB"` is present but non-numeric. -/
def sampleDict : String → Option (Option Int) := fun k =>
  if k = "VRAM,totalMB" then some none
  else if k = "VRAM" then some (some 4096)
  else none

/-- An IOKit world in which registry id 1 resolves to service 7 whose
properties are `sampleDict`. -/
def sampleIOKitEnv : IOKitEnv :=
  { idMatching := fun _ => some ()
    matchingService := fun rid => if rid = 1 then 7 else 0
    entryProperties := fun e => if e = 7 then some sampleDict else none }

/-- A Metal device whose native name is the empty string. -/
def emptyNameDevice : MTLDeviceModel :=
  { name := ""
    isRemovable := false
    isHeadless := false
    isLowPower := false
    registryID := 0
    location := GPULocation.BuiltIn
    hasUnifiedMemory := true
    maxThreadsPerThreadgroup := ⟨1, 1, 1⟩
    recommendedMaxWorkingSetSize := 8589934592 }

/-- A unified-memory Metal device that is both low-power and removable. -/
def lowPowerRemovableDevice : MTLDeviceModel :=
  { name := "Apple M2 Pro"
    isRemovable := true
    isHeadless := false
    isLowPower := true
    registryID := 1
    location := GPULocation.Slot
    hasUnifiedMemory := true
    maxThreadsPerThreadgroup := ⟨1024, 1024, 1024⟩
    recommendedMaxWorkingSetSize := 8589934592 }

/-- A unified-memory Metal device whose working-set ceiling is 1000
bytes: nonzero, but below one megabyte. -/
def tinyWorkingSetDevice : MTLDeviceModel :=
  { name := "Apple M2"
    isRemovable := false
    isHeadless := false
    isLowPower := true
    registryID := 3
    location := GPULocation.BuiltIn
    hasUnifiedMemory := true
    maxThreadsPerThreadgroup := ⟨1, 1, 1⟩
    recommendedMaxWorkingSetSize := 1000 }

/-- The discrete device of spec §8's Vulkan scenario: two heaps of
4 GiB and 1 GiB, only the first device-local. -/
def twoHeapDevice : VkPhysicalDevice :=
  { properties :=
      { device_name := some "NVIDIA GeForce RTX 4090"
        vendor_id := 0x10DE
        driver_version := 0x00401000
        device_type := 2 }
    memory_heap_count := 2
    memory_heaps := [⟨4294967296, 1⟩, ⟨1073741824, 0⟩] }

/-- A Vulkan runtime whose loader is absent. -/
def vkEnvNoLoader : VkEnv :=
  { entry_load_ok := false
    create_instance := Except.ok ()
    enumerate_physical_devices := Except.ok [twoHeapDevice] }

/-- A Vulkan runtime whose loader works but which exposes zero physical
devices. -/
def vkEnvNoDevices : VkEnv :=
  { entry_load_ok := true
    create_instance := Except.ok ()
    enumerate_physical_devices := Except.ok [] }

/-- A healthy Vulkan runtime exposing exactly `twoHeapDevice`. -/
def vkEnvOneDevice : VkEnv :=
  { entry_load_ok := true
    create_instance := Except.ok ()
    enumerate_physical_devices := Except.ok [twoHeapDevice] }

/-! ### Theorems -/

/-- C4: the Metal vendor heuristic is a case-sensitive substring match
evaluated in order with first match winning: any of
{Apple, M1, M2, M3, M4, M5} yields "Apple"; else Intel yields "Intel";
else any of {AMD, Radeon} yields "AMD"; else NVIDIA yields "NVIDIA";
else "Unknown"; in particular "NVIDIA GeForce RTX 4090" yields "NVIDIA",
"Apple M2 Pro" yields "Apple", and "Some Unbranded Card" yields
"Unknown". -/
theorem C4_detect_vendor_matches_spec :
    (∀ name : String, detect_vendor name = detect_vendor_spec name)
    ∧ detect_vendor "NVIDIA GeForce RTX 4090" = "NVIDIA"
    ∧ detect_vendor "Apple M2 Pro" = "Apple"
    ∧ detect_vendor "Some Unbranded Card" = "Unknown" := by
  refine ⟨fun name => ?_, by decide, by decide, by decide⟩
  unfold detect_vendor detect_vendor_spec vendor_rules
  simp only [first_matching_vendor, List.any_cons, List.any_nil, Bool.or_false, Bool.or_assoc]

/-- C3: the Metal GPU kind is decided by the first matching rule of the
ordered list low-power ⇒ Integrated, removable ⇒ Discrete, BuiltIn ⇒
Integrated, default Discrete; in particular a low-power removable device
is Integrated. -/
theorem C3_kind_classification (env : IOKitEnv) (dev : MTLDeviceModel) :
    (extract_gpu_info env dev).kind
        = classify_kind_spec dev.isLowPower dev.isRemovable dev.location
    ∧ (dev.isLowPower = true → dev.isRemovable = true →
        (extract_gpu_info env dev).kind = GPUKind.Integrated) := by
  have h : (extract_gpu_info env dev).kind
      = classify_kind_spec dev.isLowPower dev.isRemovable dev.location := by
    simp only [extract_gpu_info, classify_kind_spec, first_rule]
    cases dev.isLowPower <;> cases dev.isRemovable <;>
      by_cases hloc : dev.location = GPULocation.BuiltIn <;>
        simp [hloc]
  refine ⟨h, fun hlp hrm => ?_⟩
  rw [h, classify_kind_spec, hlp]
  rfl

/-- Closed witness for C3 at a concrete device that is both low-power and
removable. -/
theorem C3_kind_classification_witness :
    (extract_gpu_info trivialIOKitEnv lowPowerRemovableDevice).kind = GPUKind.Integrated :=
  (C3_kind_classification trivialIOKitEnv lowPowerRemovableDevice).2 rfl rfl

/-- The key loop of `get_vram_via_iokit` is the spec's "first numeric
value under the keys, checked in order". -/
theorem firstNumericHit_eq_findSome (dict : String → Option (Option Int)) :
    ∀ l : List String,
      firstNumericHit dict l
        = l.findSome? fun k =>
            match dict k with
            | some (some v) => some v
            | _ => none := by
  intro l
  induction l with
  | nil => rfl
  | cons k ks ih =>
    simp only [firstNumericHit, List.findSome?_cons]
    cases h : dict k with
    | none => simpa using ih
    | some o => cases o <;> simp [ih]

/-- C2: the Metal VRAM field is the working-set ceiling in MB for
unified-memory devices; otherwise the first numeric registry value under
the keys "VRAM,totalMB", "VRAM", "VRAM,total" in that order, with every
lookup failure (missing service, failed property retrieval, absent key,
non-numeric value) silently falling back to the same working-set
division; a ceiling of 8,589,934,592 bytes yields 8192. -/
theorem C2_metal_vram (env : IOKitEnv) (ws rid : Nat)
    (dict : String → Option (Option Int)) :
    calculate_vram env true ws rid = ws / 1048576
    ∧ (∀ v, get_vram_via_iokit env rid = some v → calculate_vram env false ws rid = v)
    ∧ (get_vram_via_iokit env rid = none → calculate_vram env false ws rid = ws / 1048576)
    ∧ (env.idMatching rid = none → get_vram_via_iokit env rid = none)
    ∧ (env.matchingService rid = 0 → get_vram_via_iokit env rid = none)
    ∧ (env.entryProperties (env.matchingService rid) = none →
        get_vram_via_iokit env rid = none)
    ∧ (env.idMatching rid = some () → env.matchingService rid ≠ 0 →
        env.entryProperties (env.matchingService rid) = some dict →
        get_vram_via_iokit env rid
          = (registry_first_numeric_spec dict).map
              (fun v => Int.toNat (v % (2 ^ 64 : Int))))
    ∧ calculate_vram env true 8589934592 rid = 8192 := by
  refine ⟨rfl, fun v hv => ?_, fun hn => ?_, fun h1 => ?_, fun h2 => ?_, fun h3 => ?_,
    fun h1 h2 h3 => ?_, rfl⟩
  · simp [calculate_vram, hv]
  · simp [calculate_vram, hn]
  · simp [get_vram_via_iokit, h1]
  · unfold get_vram_via_iokit
    cases h : env.idMatching rid <;> simp [h2]
  · unfold get_vram_via_iokit
    cases h : env.idMatching rid
    · rfl
    · simp only []
      by_cases hz : env.matchingService rid = 0 <;> simp [hz, h3]
  · unfold get_vram_via_iokit
    rw [h1]
    simp only [h2, if_neg h2, h3]
    rw [registry_first_numeric_spec, ← firstNumericHit_eq_findSome]
    cases firstNumericHit dict vramKeys <;> rfl

/-- Closed witness for C2: each failure-mode hypothesis and the numeric
hit are exercised on concrete IOKit worlds. -/
theorem C2_metal_vram_witness :
    calculate_vram sampleIOKitEnv false 0 1 = 4096
    ∧ get_vram_via_iokit trivialIOKitEnv 5 = none
    ∧ calculate_vram trivialIOKitEnv false 8589934592 5 = 8192
    ∧ get_vram_via_iokit sampleIOKitEnv 1
        = (registry_first_numeric_spec sampleDict).map
            (fun v => Int.toNat (v % (2 ^ 64 : Int))) :=
  ⟨(C2_metal_vram sampleIOKitEnv 0 1 sampleDict).2.1 4096 (by decide),
   (C2_metal_vram trivialIOKitEnv 0 5 sampleDict).2.2.2.1 rfl,
   (C2_metal_vram trivialIOKitEnv 8589934592 5 sampleDict).2.2.1 (by decide),
   (C2_metal_vram sampleIOKitEnv 0 1 sampleDict).2.2.2.2.2.2.1 rfl (by decide) rfl⟩

/-- Summing the sizes of the device-local heaps equals summing, over all
heaps, the size when device-local and 0 otherwise. -/
theorem sum_filter_deviceLocal (l : List VkMemoryHeap) :
    ((l.filter memoryHeapIsDeviceLocal).map VkMemoryHeap.size).sum
      = (l.map fun h => if memoryHeapIsDeviceLocal h then h.size else 0).sum := by
  induction l with
  | nil => rfl
  | cons h t ih =>
    by_cases hh : memoryHeapIsDeviceLocal h <;>
      simp [List.filter_cons, hh, ih]

/-- C5: the Vulkan descriptor's vram is the byte total of exactly the
device-local heaps divided by 1,048,576; with heaps of 4,294,967,296 and
1,073,741,824 bytes of which only the first is device-local, vram is
4096. -/
theorem C5_vk_vram (d : VkPhysicalDevice) :
    (extract_vk_gpu d).vram
        = (((d.memory_heaps.take d.memory_heap_count).filter
            memoryHeapIsDeviceLocal).map VkMemoryHeap.size).sum / 1048576
    ∧ (extract_vk_gpu d).vram = vk_vram_spec d
    ∧ (extract_vk_gpu twoHeapDevice).vram = 4096 := by
  refine ⟨rfl, ?_, by decide⟩
  show vk_vram_bytes d / (1024 * 1024) = vk_vram_spec d
  rw [vk_vram_bytes, vk_vram_spec, sum_filter_deviceLocal]

/-- C7: the decoded Vulkan driver-version string is major.minor.patch
with major = bits 22–31, minor = bits 12–21, patch = bits 0–11; the
packed value 0x00401000 decodes to "1.1.0". -/
theorem C7_driver_version (d : VkPhysicalDevice) (v : Nat) :
    (extract_vk_gpu d).driver_version = vk_driver_version_spec d.properties.driver_version
    ∧ vk_driver_version_string v = vk_driver_version_spec v
    ∧ vk_driver_version_string 0x00401000 = "1.1.0" := by
  have mask10 : ∀ n : Nat, n &&& 0x3FF = n % 2 ^ 10 := fun n =>
    Nat.and_pow_two_sub_one_eq_mod n 10
  have mask12 : ∀ n : Nat, n &&& 0xFFF = n % 2 ^ 12 := fun n =>
    Nat.and_pow_two_sub_one_eq_mod n 12
  have hgen : ∀ w : Nat, vk_driver_version_string w = vk_driver_version_spec w := by
    intro w
    rw [vk_driver_version_string, vk_driver_version_spec,
      Nat.shiftRight_eq_div_pow, Nat.shiftRight_eq_div_pow, mask10, mask10, mask12]
  exact ⟨hgen d.properties.driver_version, hgen v, by decide⟩

/-- The Vulkan enumeration fails with `VulkanNotSupported` exactly when
the loader fails to load. -/
theorem vk_not_supported_iff (env : VkEnv) :
    retrieve_gpu_info_via_vk env = Except.error Error.VulkanNotSupported
      ↔ env.entry_load_ok = false := by
  unfold retrieve_gpu_info_via_vk
  cases hl : env.entry_load_ok
  · simp
  · cases hc : env.create_instance
    · simp
    · cases he : env.enumerate_physical_devices
      · simp
      · rename_i devs
        by_cases hnil : devs.isEmpty <;> simp [hnil]

/-- C6: Metal enumeration with zero devices fails with `NotSupported`
rather than an empty success list; the Vulkan enumeration returns
`VulkanNotSupported` exactly when loading the entry point fails, and
returns `VulkanOperationFailed` exactly when the loader succeeded but
instance creation or device enumeration fails or zero physical devices
are found. -/
theorem C6_error_variants :
    (∀ env : IOKitEnv,
      retrieve_gpu_info_via_metal env [] = Except.error MetalError.NotSupported)
    ∧ (∀ env : VkEnv,
        retrieve_gpu_info_via_vk env = Except.error Error.VulkanNotSupported
          ↔ env.entry_load_ok = false)
    ∧ (∀ env : VkEnv, env.entry_load_ok = true →
        ((∃ msg, retrieve_gpu_info_via_vk env
            = Except.error (Error.VulkanOperationFailed msg))
          ↔ ((∃ m, env.create_instance = Except.error m)
            ∨ (∃ m, env.enumerate_physical_devices = Except.error m)
            ∨ env.enumerate_physical_devices = Except.ok []))) := by
  refine ⟨fun env => rfl, vk_not_supported_iff, fun env hl => ?_⟩
  unfold retrieve_gpu_info_via_vk
  rw [hl]
  cases hc : env.create_instance
  · simp
  · cases he : env.enumerate_physical_devices
    · simp
    · rename_i devs
      by_cases hnil : devs = []
      · subst hnil; simp
      · simp [hnil, List.isEmpty_iff]

/-- Closed witness for C6 on concrete runtimes: no-loader, no-device and
zero-Metal-device worlds. -/
theorem C6_error_variants_witness :
    retrieve_gpu_info_via_metal trivialIOKitEnv [] = Except.error MetalError.NotSupported
    ∧ retrieve_gpu_info_via_vk vkEnvNoLoader = Except.error Error.VulkanNotSupported
    ∧ (∃ msg, retrieve_gpu_info_via_vk vkEnvNoDevices
        = Except.error (Error.VulkanOperationFailed msg)) :=
  ⟨C6_error_variants.1 trivialIOKitEnv,
   (C6_error_variants.2.1 vkEnvNoLoader).mpr rfl,
   (C6_error_variants.2.2 vkEnvNoDevices rfl).mpr (Or.inr (Or.inr rfl))⟩

/-- C10: the standalone probe `is_vulkan_supported` is true exactly when
the loader check succeeds, hence false exactly when
`retrieve_gpu_info_via_vk` on the same runtime state fails with
`VulkanNotSupported`. -/
theorem C10_is_vulkan_supported (env : VkEnv) :
    (is_vulkan_supported env = true ↔ env.entry_load_ok = true)
    ∧ (is_vulkan_supported env = false
        ↔ retrieve_gpu_info_via_vk env = Except.error Error.VulkanNotSupported) := by
  refine ⟨Iff.rfl, ?_⟩
  rw [vk_not_supported_iff]
  exact Iff.rfl

/-- C8 fails as stated: a successful Metal enumeration of a device whose
native name is the empty string returns a descriptor whose `name` field
is the empty string — no "Unknown" fallback is applied to an empty (as
opposed to absent or non-decodable) name. -/
theorem C8_counterexample :
    (retrieve_gpu_info_via_metal trivialIOKitEnv [emptyNameDevice]).map
        (fun gpus => gpus.map fun g => (metalGpuToGPU g).name)
      = Except.ok [""] := rfl

/-- C8 amended: `vendor` is always one of the non-empty heuristic strings
on both backends; `name` is copied verbatim from the native name on Metal
(hence non-empty whenever the native name is) and on Vulkan equals the
decoded native name, with "Unknown" substituted only when decoding
fails. -/
theorem C8_amended_nonempty (env : IOKitEnv) (dev : MTLDeviceModel)
    (d : VkPhysicalDevice) :
    (extract_gpu_info env dev).vendor ≠ ""
    ∧ (extract_gpu_info env dev).name = dev.name
    ∧ (dev.name ≠ "" → (extract_gpu_info env dev).name ≠ "")
    ∧ (extract_vk_gpu d).vendor ≠ ""
    ∧ (d.properties.device_name = none → (extract_vk_gpu d).name = "Unknown")
    ∧ (∀ s, d.properties.device_name = some s → (extract_vk_gpu d).name = s) := by
  have hv : ∀ n : String, detect_vendor n ≠ "" := by
    intro n
    unfold detect_vendor
    split_ifs <;> decide
  have hvk : ∀ i : Nat, vk_vendor_name i ≠ "" := by
    intro i
    unfold vk_vendor_name
    split_ifs <;> decide
  refine ⟨hv dev.name, rfl, fun hne => hne, hvk d.properties.vendor_id,
    fun hnone => ?_, fun s hs => ?_⟩
  · show (d.properties.device_name).getD "Unknown" = "Unknown"
    rw [hnone]
    rfl
  · show (d.properties.device_name).getD "Unknown" = s
    rw [hs]
    rfl

/-- Closed witness for C8 amended: a non-empty native name survives on
both backends. -/
theorem C8_amended_nonempty_witness :
    (extract_gpu_info trivialIOKitEnv lowPowerRemovableDevice).name ≠ ""
    ∧ (extract_vk_gpu twoHeapDevice).name = "NVIDIA GeForce RTX 4090" :=
  ⟨(C8_amended_nonempty trivialIOKitEnv lowPowerRemovableDevice twoHeapDevice).2.2.1
      (by decide),
   (C8_amended_nonempty trivialIOKitEnv lowPowerRemovableDevice twoHeapDevice).2.2.2.2.2
      "NVIDIA GeForce RTX 4090" rfl⟩

/-- C9 fails as stated: a unified-memory Metal device whose native data
reports a nonzero memory capacity of 1000 bytes maps to `vram = 0`,
because megabyte conversion floors sub-megabyte capacities to zero. -/
theorem C9_counterexample :
    tinyWorkingSetDevice.recommendedMaxWorkingSetSize = 1000
    ∧ (extract_gpu_info trivialIOKitEnv tinyWorkingSetDevice).vram = 0 :=
  ⟨rfl, rfl⟩

/-- C9 amended: `vram = 0` is never produced for a device whose relevant
native byte total is at least one megabyte (1,048,576 bytes), nor when
the registry lookup hits a nonzero numeric value; only sub-megabyte (or
zero) native values yield 0. -/
theorem C9_amended_vram_zero (env : IOKitEnv) (ws rid v : Nat)
    (d : VkPhysicalDevice) :
    (1048576 ≤ ws → calculate_vram env true ws rid ≠ 0)
    ∧ (get_vram_via_iokit env rid = none → 1048576 ≤ ws →
        calculate_vram env false ws rid ≠ 0)
    ∧ (get_vram_via_iokit env rid = some v → v ≠ 0 →
        calculate_vram env false ws rid ≠ 0)
    ∧ (1048576 ≤ vk_vram_bytes d → (extract_vk_gpu d).vram ≠ 0) := by
  have hdiv : ∀ w : Nat, 1048576 ≤ w → w / 1048576 ≠ 0 := fun w hw =>
    Nat.pos_iff_ne_zero.mp (Nat.div_pos hw (by norm_num))
  refine ⟨fun hw => ?_, fun hn hw => ?_, fun hs hv => ?_, fun hb => ?_⟩
  · simpa [calculate_vram] using hdiv ws hw
  · simp only [calculate_vram, hn, if_neg Bool.false_ne_true, Option.getD_none]
    simpa using hdiv ws hw
  · simpa [calculate_vram, hs] using hv
  · show vk_vram_bytes d / (1024 * 1024) ≠ 0
    simpa using hdiv _ hb

/-- Closed witness for C9 amended: an 8 GiB working set and a 4 GiB
device-local heap both yield nonzero vram. -/
theorem C9_amended_vram_zero_witness :
    calculate_vram trivialIOKitEnv true 8589934592 0 ≠ 0
    ∧ (extract_vk_gpu twoHeapDevice).vram ≠ 0 :=
  ⟨(C9_amended_vram_zero trivialIOKitEnv 8589934592 0 0 twoHeapDevice).1 (by norm_num),
   (C9_amended_vram_zero trivialIOKitEnv 0 0 0 twoHeapDevice).2.2.2 (by decide)⟩

/-- C1: on the macOS build the public entry point returns exactly the
Metal backend's result mapped into unified descriptors, but on the
non-macOS build it returns an unconditionally empty success list without
consulting the Vulkan backend — contradicting the claim (and the crate's
own test, which asserts the returned list is non-empty). -/
theorem C1_entry_point (env : IOKitEnv) (devices : List MTLDeviceModel) :
    retrieve_gpu_info_macos env devices
        = Except.mapError Error.Metal
            (Except.map (List.map metalGpuToGPU) (retrieve_gpu_info_via_metal env devices))
    ∧ retrieve_gpu_info_non_macos = Except.ok ([] : List GPU) := by
  constructor
  · unfold retrieve_gpu_info_macos
    cases retrieve_gpu_info_via_metal env devices <;> rfl
  · rfl

end GpuInfo
